import Mathlib

/-!
# Verification of the agentic_gpt decision-execution loop

Shallow embedding of the repository's core loop and its supporting state:

* `src/agentic_gpt/agent/action.py` — the `Action` class and its `execute` wrapper;
* `src/agentic_gpt/agent/memory.py` — the `Memory` document store;
* `src/agentic_gpt/agent/agentic_gpt.py` — `AgenticGPT.process_response`,
  `AgenticGPT.run`, the templating helper `__template_from_memory` and the
  result-naming helper `__name_action_returned_variable`;
* `src/agent_gpt/agent/agent_gpt.py` — the legacy `AgentGPT.process_response`.

External collaborators (the Python standard library's `json`, the `jinja2`
template engine, the builtin `eval`, and the llama-index retrieval layer) are
modelled explicitly where the control flow of the core depends on them; every
such modelling choice is documented at the corresponding definition.

Python values are embedded as the inductive `Value`; Python exceptions as
`PyErr`; a raised exception is an `error`/`fatal` result of the embedded
function.  Python dicts are association lists with insertion-order update
semantics (`insertDoc`).
-/

/-- Python exception values, tagged by class, carrying `str(exc)`. -/
inductive PyErr where
  /-- `AgentError` from `src/agentic_gpt/agent/errors/__init__.py`; the only
  exception class `AgenticGPT.run` catches. -/
  | agentError (msg : String)
  /-- Builtin `TypeError`. -/
  | typeError (msg : String)
  /-- Builtin `AttributeError`. -/
  | attributeError (msg : String)
  /-- Builtin `NameError` (raised by `eval` on an unbound identifier). -/
  | nameError (msg : String)
  /-- Builtin `KeyError` (raised by indexing a dict with an absent key). -/
  | keyError (msg : String)
deriving DecidableEq

/-- Embedded Python/JSON values as they flow through the loop.  `obj` stands
for any object that is not JSON-serializable (e.g. a browser page handle). -/
inductive Value where
  | none
  | str (s : String)
  | int (n : Int)
  | bool (b : Bool)
  | list (xs : List Value)
  | dict (xs : List (String × Value))
  | obj (tag : String)

/-- Python `x is None`. -/
def Value.isNone : Value → Bool
  | .none => true
  | _ => false

/-- The `\x7b` character, kept as a named constant. -/
def lbrace : Char := Char.ofNat 123

/-- The `\x7d` character, kept as a named constant. -/
def rbrace : Char := Char.ofNat 125

/-- `lstarts n h`: the char list `h` starts with `n`. -/
def lstarts : List Char → List Char → Bool
  | [], _ => true
  | _ :: _, [] => false
  | a :: as, b :: bs => a = b && lstarts as bs

/-- `lsub n h`: `n` occurs as a contiguous sublist of `h` — the embedding of
Python's substring test `n in h`. -/
def lsub (needle : List Char) : List Char → Bool
  | [] => needle.isEmpty
  | c :: cs => lstarts needle (c :: cs) || lsub needle cs

/-- Python `needle in hay` on strings. -/
def strContains (hay needle : String) : Bool :=
  lsub needle.data hay.data

/-- First value bound to `key` in an association list (Python dict lookup). -/
def lookupStr (docs : List (String × String)) (key : String) : Option String :=
  match docs.find? (fun kv => kv.1 = key) with
  | some kv => some kv.2
  | Option.none => Option.none

/-- Python dict assignment `d[name] = text`: overwrite in place if the key
exists, otherwise append (insertion order is preserved, as in Python ≥ 3.7). -/
def insertDoc (docs : List (String × String)) (name text : String) :
    List (String × String) :=
  if docs.any (fun kv => kv.1 = name) then
    docs.map (fun kv => if kv.1 = name then (name, text) else kv)
  else
    docs ++ [(name, text)]

/-- Fuel-driven decimal digit extraction: digits of `n` (most significant
first) provided `n < fuel`. -/
def natToStrAux : Nat → Nat → List Char
  | 0, _ => []
  | _ + 1, 0 => []
  | fuel + 1, n + 1 =>
    natToStrAux fuel ((n + 1) / 10) ++ [Nat.digitChar ((n + 1) % 10)]

/-- The embedding of Python's `str` on a non-negative integer: its decimal
rendering. -/
def natToString (n : Nat) : String :=
  if n = 0 then "0" else ⟨natToStrAux (n + 1) n⟩

theorem natToStrAux_eq_digits :
    ∀ fuel n, n < fuel →
      natToStrAux fuel n = ((Nat.digits 10 n).reverse.map Nat.digitChar) := by
  intro fuel
  induction fuel with
  | zero => intro n h; omega
  | succ f ih =>
    intro n h
    match n with
    | 0 => simp [natToStrAux]
    | m + 1 =>
      have hdiv : (m + 1) / 10 < m + 1 := Nat.div_lt_self (Nat.succ_pos m) (by norm_num)
      have hf : (m + 1) / 10 < f := by omega
      rw [natToStrAux, ih _ hf,
        Nat.digits_def' (b := 10) (by norm_num) (Nat.succ_pos m)]
      simp

theorem digitChar_inj_fin :
    ∀ a b : Fin 10, Nat.digitChar a.val = Nat.digitChar b.val → a = b := by
  decide

theorem digitChar_inj_lt_ten :
    ∀ a b : Nat, a < 10 → b < 10 → Nat.digitChar a = Nat.digitChar b → a = b := by
  intro a b ha hb h
  have := digitChar_inj_fin ⟨a, ha⟩ ⟨b, hb⟩ h
  exact congrArg Fin.val this

theorem map_digitChar_inj :
    ∀ l1 l2 : List Nat, (∀ x ∈ l1, x < 10) → (∀ x ∈ l2, x < 10) →
      l1.map Nat.digitChar = l2.map Nat.digitChar → l1 = l2 := by
  intro l1
  induction l1 with
  | nil => intro l2 _ _ h; cases l2 <;> simp_all
  | cons a as ih =>
    intro l2 h1 h2 h
    cases l2 with
    | nil => simp_all
    | cons b bs =>
      simp only [List.map_cons, List.cons.injEq] at h
      have ha : a = b :=
        digitChar_inj_lt_ten a b (h1 a (by simp)) (h2 b (by simp)) h.1
      have : as = bs :=
        ih bs (fun x hx => h1 x (by simp [hx])) (fun x hx => h2 x (by simp [hx])) h.2
      simp [ha, this]

theorem natToString_inj_pos {m n : Nat} (hm : 0 < m) (hn : 0 < n)
    (h : natToString m = natToString n) : m = n := by
  unfold natToString at h
  rw [if_neg (by omega), if_neg (by omega)] at h
  have hdata : natToStrAux (m + 1) m = natToStrAux (n + 1) n :=
    congrArg String.data h
  rw [natToStrAux_eq_digits _ _ (by omega), natToStrAux_eq_digits _ _ (by omega)] at hdata
  have hrev : (Nat.digits 10 m).reverse = (Nat.digits 10 n).reverse :=
    map_digitChar_inj _ _
      (fun x hx => Nat.digits_lt_base (by norm_num) (by simpa using hx))
      (fun x hx => Nat.digits_lt_base (by norm_num) (by simpa using hx))
      hdata
  have hdig : Nat.digits 10 m = Nat.digits 10 n :=
    List.reverse_injective hrev
  calc m = Nat.ofDigits 10 (Nat.digits 10 m) := (Nat.ofDigits_digits 10 m).symm
    _ = Nat.ofDigits 10 (Nat.digits 10 n) := by rw [hdig]
    _ = n := Nat.ofDigits_digits 10 n

/-! ## JSON serialization and Python string rendering

The core calls the Python standard library's `json.dumps` and renders values
with `str` inside diagnostic messages.  Both are external collaborators;
they are modelled below.  String escaping inside `json.dumps` and `repr` is
elided: the strings exercised by the claims contain no quote, backslash or
control characters, on which both renderings are plain quoting. -/

/-- Wrap a string in double quotes (the `json.dumps` rendering of a string
without escape-worthy characters). -/
def jsonQuote (s : String) : String := "\"" ++ s ++ "\""

mutual

/-- Model of `json.dumps`: `Option.none` exactly when the value contains a
non-serializable object, in which case `json.dumps` raises a `TypeError`. -/
def jsonDumps : Value → Option String
  | .none => some "null"
  | .str s => some (jsonQuote s)
  | .int n => some (toString n)
  | .bool b => some (if b then "true" else "false")
  | .obj _ => Option.none
  | .list xs => do
      let parts ← jsonDumpsList xs
      some ("[" ++ String.intercalate ", " parts ++ "]")
  | .dict xs => do
      let parts ← jsonDumpsKVs xs
      some ("\x7b" ++ String.intercalate ", " parts ++ "\x7d")

/-- `json.dumps` elementwise on a list payload. -/
def jsonDumpsList : List Value → Option (List String)
  | [] => some []
  | v :: vs => do
      let s ← jsonDumps v
      let ss ← jsonDumpsList vs
      some (s :: ss)

/-- `json.dumps` elementwise on a dict payload. -/
def jsonDumpsKVs : List (String × Value) → Option (List String)
  | [] => some []
  | (k, v) :: kvs => do
      let sv ← jsonDumps v
      let ss ← jsonDumpsKVs kvs
      some ((jsonQuote k ++ ": " ++ sv) :: ss)

end

mutual

/-- Model of Python `repr` on the values at hand (used by `str` on containers);
strings are single-quoted. -/
def pyRepr : Value → String
  | .none => "None"
  | .str s => "'" ++ s ++ "'"
  | .int n => toString n
  | .bool b => if b then "True" else "False"
  | .obj tag => tag
  | .list xs => "[" ++ String.intercalate ", " (pyReprList xs) ++ "]"
  | .dict xs => "\x7b" ++ String.intercalate ", " (pyReprKVs xs) ++ "\x7d"

/-- `repr` elementwise on a list payload. -/
def pyReprList : List Value → List String
  | [] => []
  | v :: vs => pyRepr v :: pyReprList vs

/-- `repr` elementwise on a dict payload. -/
def pyReprKVs : List (String × Value) → List String
  | [] => []
  | (k, v) :: kvs => ("'" ++ k ++ "': " ++ pyRepr v) :: pyReprKVs kvs

end

/-- Python `str` applied to a list of values, as in
`str(response_obj["command"]["args"])`. -/
def pyStrList (vs : List Value) : String :=
  "[" ++ String.intercalate ", " (vs.map pyRepr) ++ "]"

/-- Python `str` applied to a string-keyed dict, as in
`str(response_obj["command"]["kwargs"])`. -/
def pyStrDict (kvs : List (String × Value)) : String :=
  "\x7b" ++
    String.intercalate ", "
      (kvs.map (fun kv => "'" ++ kv.1 ++ "': " ++ pyRepr kv.2)) ++
  "\x7d"

/-! ## Template rendering (`jinja2`) and literal evaluation (`eval`)

`AgenticGPT.__template_from_memory` renders an argument string as a `jinja2`
template over `self.memory.documents` and, when the rendering changed the
string, applies the builtin `eval` to the result.  `jinja2` is an external
collaborator; its behaviour on the templates the loop produces is modelled as
a character-level scanner: a `\x7b\x7bname\x7d\x7d` occurrence is replaced by
the document text bound to the whitespace-trimmed `name`, and an unbound name
renders as the empty string (the default `jinja2.Undefined`). -/

/-- Strip leading and trailing spaces (jinja ignores whitespace around the
variable name inside the braces). -/
def trimChars (cs : List Char) : List Char :=
  ((cs.dropWhile (fun c => c = ' ')).reverse.dropWhile (fun c => c = ' ')).reverse

/-- Scanner state for the template renderer. -/
inductive RState where
  /-- outside any variable reference -/
  | out
  /-- one opening brace seen -/
  | oneL
  /-- inside a variable reference, name accumulated so far -/
  | inVar (nm : List Char)
  /-- one closing brace seen after a variable name -/
  | oneR (nm : List Char)

/-- One-pass renderer over the character list of the template string. -/
def renderAux (docs : List (String × String)) : RState → List Char → List Char
  | .out, [] => []
  | .out, c :: cs =>
      if c = lbrace then renderAux docs .oneL cs
      else c :: renderAux docs .out cs
  | .oneL, [] => [lbrace]
  | .oneL, c :: cs =>
      if c = lbrace then renderAux docs (.inVar []) cs
      else lbrace :: c :: renderAux docs .out cs
  | .inVar nm, [] => lbrace :: lbrace :: nm
  | .inVar nm, c :: cs =>
      if c = rbrace then renderAux docs (.oneR nm) cs
      else renderAux docs (.inVar (nm ++ [c])) cs
  | .oneR nm, [] => lbrace :: lbrace :: (nm ++ [rbrace])
  | .oneR nm, c :: cs =>
      if c = rbrace then
        ((lookupStr docs ⟨trimChars nm⟩).getD "").data ++ renderAux docs .out cs
      else renderAux docs (.inVar (nm ++ [rbrace, c])) cs

/-- `template.render(self.memory.documents)` for the template `s`
(agentic_gpt.py lines 267-269). -/
def render (docs : List (String × String)) (s : String) : String :=
  ⟨renderAux docs .out s.data⟩

/-- Model of the builtin `eval` (agentic_gpt.py line 277) on the literal
forms that memory documents take after JSON serialization: a double-quoted
string evaluates to its contents and a run of digits to an integer; any other
text is modelled as an unbound identifier, on which `eval` raises a
`NameError`.  (Other literal forms — bracketed lists, dicts — are not
exercised by any claim and are subsumed under the error case.) -/
def pyEval (s : String) : Except PyErr Value :=
  let cs := s.data
  if h : 2 ≤ cs.length ∧ cs.head? = some '"' ∧ cs.getLast? = some '"' then
    .ok (.str ⟨(cs.drop 1).dropLast⟩)
  else if cs ≠ [] ∧ cs.all (fun c => c.isDigit) then
    .ok (.int (Int.ofNat (cs.foldl (fun acc c => acc * 10 + (c.toNat - 48)) 0)))
  else
    .error (.nameError ("name " ++ s ++ " is not defined"))

/-- `AgenticGPT.__template_from_memory` (agentic_gpt.py lines 263-278): a
non-string passes through; a string is rendered against the documents; if the
rendering changed it and is empty, an `AgentError` is raised; if it changed
and is non-empty, the rendering is passed to `eval`; otherwise the string
passes through unchanged. -/
def templateFromMemory (docs : List (String × String)) : Value → Except PyErr Value
  | .str s =>
      let result := render docs s
      if result ≠ s then
        if result = "" then
          .error (.agentError (s ++ " is not a valid file in memory. Please try again."))
        else
          pyEval result
      else
        .ok (.str s)
  | v => .ok v

example :
    templateFromMemory [("doc1", "\"hello\"")]
      (.str ⟨[lbrace, lbrace, 'd', 'o', 'c', '1', rbrace, rbrace]⟩) =
    .ok (.str "hello") := rfl

example :
    templateFromMemory [("doc1", "\"hello\"")]
      (.str ⟨[lbrace, lbrace, 'n', 'o', rbrace, rbrace]⟩) =
    .error (.agentError ⟨[lbrace, lbrace, 'n', 'o', rbrace, rbrace] ++
      " is not a valid file in memory. Please try again.".data⟩) := rfl

/-! ## Memory (`src/agentic_gpt/agent/memory.py`)

`Memory` keeps `self.documents` (name → text), `self.document_store`
(name → \x7btext, summary, index\x7d) and `self.router_index`.  Summaries and
index handles are produced by the external llama-index collaborator
(`summarize_documents`, `init_index`); the model keeps the text component of
the store and records only whether `router_index` is `None` or an index
object, which is all the control flow of the core reads. -/

structure MemoryState where
  /-- `self.documents`: name → text pairs. -/
  documents : List (String × String)
  /-- the text components of `self.document_store` (summary and index handle
  come from the external collaborator and are elided). -/
  documentStore : List (String × String)
  /-- whether `self.router_index` is an index object (`true`) or `None`. -/
  routerIsSome : Bool

/-- `Memory.__init__` (memory.py lines 15-51): stores the given documents;
with a non-empty dict it builds the document store and a router index, with an
empty dict it sets `self.document_store = \x7b\x7d` and
`self.router_index = None`. -/
def Memory.init (docs : List (String × String)) : MemoryState :=
  { documents := docs, documentStore := docs, routerIsSome := !docs.isEmpty }

/-- `str(exc)` of the `AttributeError` raised by `None.insert(...)`
(Python quoting of the attribute and type names elided). -/
def attrInsertMsg : String := "NoneType object has no attribute insert"

/-- `Memory.add_document` (memory.py lines 86-98): `self.documents[name]` and
`self.document_store[name]` are assigned first; the final statement
`self.router_index.insert(Document(document))` raises an `AttributeError`
when `router_index` is `None`.  The summary computation in between is the
external collaborator and is assumed to return.  The returned pair is the
state after the mutations together with the exception, if one was raised. -/
def MemoryState.addDocument (m : MemoryState) (name text : String) :
    MemoryState × Option PyErr :=
  let m' : MemoryState :=
    { m with
      documents := insertDoc m.documents name text
      documentStore := insertDoc m.documentStore name text }
  (m', if m.routerIsSome then Option.none else some (.attributeError attrInsertMsg))

/-- Number of document names containing `actionName` as a substring. -/
def countContaining (docs : List (String × String)) (actionName : String) : Nat :=
  (docs.filter (fun kv => lsub actionName.data kv.1.data)).length

/-- `AgenticGPT.__name_action_returned_variable` (agentic_gpt.py lines
280-290): `suffix` starts at `1` and is incremented once per memory document
name containing `action_name` as a substring. -/
def nameActionReturnedVariable (docs : List (String × String))
    (actionName : String) : String :=
  actionName ++ "_result_" ++ natToString (1 + countContaining docs actionName)

/-! ## Actions (`src/agentic_gpt/agent/action.py`) -/

/-- An `Action`: name, description, and the wrapped Python callable.  The
callable is embedded as a function from its positional arguments to a normal
return or a raised exception.  (`Action.execute` forwards only positional
arguments — see `Action.executeCall`.) -/
structure AgentAction where
  name : String
  description : String
  function : List Value → Except PyErr Value

/-- The call `action.execute(*action_args, **action_kwargs)` from
`AgenticGPT.process_response` (agentic_gpt.py line 320) applied to
`Action.execute` (action.py lines 28-33), whose signature is
`def execute(self, *args)`: it declares no keyword parameters, so Python
raises a `TypeError` at the call site whenever `action_kwargs` is non-empty —
before the body's `try` block can run.  With no keyword arguments the body
calls `self.function(*args)` and re-raises any exception from the callable as
an `AgentError` prefixed with "Error executing action.". -/
def AgentAction.executeCall (a : AgentAction) (args : List Value)
    (kwargs : List (String × Value)) : Except PyErr Value :=
  if kwargs.isEmpty then
    match a.function args with
    | .ok v => .ok v
    | .error e =>
        .error (.agentError ("Error executing action. Error message: " ++
          (match e with
           | .agentError m => m
           | .typeError m => m
           | .attributeError m => m
           | .nameError m => m
           | .keyError m => m)))
  else
    .error (.typeError "execute() got an unexpected keyword argument")

/-- `DONE_FUNCTION` (agentic_gpt.py line 22). -/
def DONE_FUNCTION : String := "declare_done"

/-- `declare_done` (agentic_gpt.py lines 25-26): a Python function of no
parameters and no body; called with no arguments it returns `None`, called
with any positional argument Python raises a `TypeError` at binding time. -/
def declare_done_fn : List Value → Except PyErr Value := fun args =>
  if args.isEmpty then .ok .none
  else .error (.typeError "declare_done() takes 0 positional arguments")

/-- The reserved terminal action (agentic_gpt.py lines 153-157). -/
def declareDoneAction : AgentAction :=
  { name := DONE_FUNCTION
    description := "Declare that you are done with your objective."
    function := declare_done_fn }

/-! ## Model responses, `process_response` and `run`
(`src/agentic_gpt/agent/agentic_gpt.py`) -/

/-- `response_obj["command"]`: the action name, with `args`/`kwargs` present
or absent (`"args" in response_obj["command"]` checks at lines 295 and 300). -/
structure Command where
  action : String
  args : Option (List Value)
  kwargs : Option (List (String × Value))

/-- A parsed model response: `thoughts.text`, `thoughts.reasoning` (read at
lines 308-309) and the command. -/
structure Response where
  thoughtsText : String
  thoughtsReasoning : String
  command : Command

/-- The list comprehension
`[self.__template_from_memory(arg) for arg in action_args]` (line 297):
left to right, the first raised exception aborts. -/
def templateValues (docs : List (String × String)) :
    List Value → Except PyErr (List Value)
  | [] => .ok []
  | v :: vs => do
      let v' ← templateFromMemory docs v
      let vs' ← templateValues docs vs
      .ok (v' :: vs')

/-- The dict comprehension over `action_kwargs.items()` (lines 302-305):
values are templated, keys kept. -/
def templateKwargs (docs : List (String × String)) :
    List (String × Value) → Except PyErr (List (String × Value))
  | [] => .ok []
  | (k, v) :: kvs => do
      let v' ← templateFromMemory docs v
      let kvs' ← templateKwargs docs kvs
      .ok ((k, v') :: kvs')

/-- Outcome of one `process_response` call, as observed by `run`:

* `ok`: normal return of
  `\x7b"agent_response": response_obj, "action_result": action_result\x7d`,
  with the memory and context after the call;
* `agentErr`: an `AgentError` was raised — every `AgentError` site
  (templating, the `execute` wrapper) runs before any mutation of context or
  memory, so the state at the raise equals the state at entry;
* `fatal`: any other exception was raised — `run` does not catch it; the
  memory and context at the moment of the raise are carried for inspection. -/
inductive PRStep where
  | ok (resp : Response) (actionResult : Value) (mem : MemoryState) (ctx : String)
  | agentErr (msg : String)
  | fatal (e : PyErr) (mem : MemoryState) (ctx : String)

/-- The `TypeError` message raised at lines 326-328. -/
def serializationErrorMsg (chosenAction : String) : String :=
  "Result from action " ++ chosenAction ++
    " is not JSON serializable. Make sure that the `Action` you wrote returns a JSON serializable object."

/-- `AgenticGPT.process_response` (agentic_gpt.py lines 292-339):
template the args, then the kwargs; find the first action whose name matches
(no match: no invocation, `action_result` stays `None`); call
`action.execute(*args, **kwargs)`; append the executed note to the context;
compute the disambiguated result name; `json.dumps` the result (a `TypeError`
propagates); if the result is not `None`, store it via
`Memory.add_document` and append the stored-as note. -/
def processResponse (acts : List AgentAction) (mem : MemoryState) (ctx : String)
    (resp : Response) : PRStep :=
  match (match resp.command.args with
         | some args => templateValues mem.documents args
         | Option.none => .ok []) with
  | .error (.agentError m) => .agentErr m
  | .error e => .fatal e mem ctx
  | .ok actionArgs =>
    match (match resp.command.kwargs with
           | some kvs => templateKwargs mem.documents kvs
           | Option.none => .ok []) with
    | .error (.agentError m) => .agentErr m
    | .error e => .fatal e mem ctx
    | .ok actionKwargs =>
      match acts.find? (fun a => a.name = resp.command.action) with
      | Option.none => .ok resp .none mem ctx
      | some a =>
        match a.executeCall actionArgs actionKwargs with
        | .error (.agentError m) => .agentErr m
        | .error e => .fatal e mem ctx
        | .ok result =>
          let ctx1 := ctx ++ "\n\nCommand " ++ resp.command.action ++ " executed."
          let varName := nameActionReturnedVariable mem.documents resp.command.action
          match jsonDumps result with
          | Option.none => .fatal (.typeError (serializationErrorMsg resp.command.action)) mem ctx1
          | some ser =>
            if result.isNone then
              .ok resp result mem ctx1
            else
              match mem.addDocument varName ser with
              | (m', some e) => .fatal e m' ctx1
              | (m', Option.none) =>
                .ok resp result m' (ctx1 ++ "\nResult is stored in Memory as: " ++ varName)

/-- One entry of the completion oracle: what `get_completion` returned, as
seen by `json.loads` — either text that fails to decode (with `str(exc)` of
the `JSONDecodeError`) or a decoded response object.  The completion service
is an external collaborator, so the loop is modelled against this stream. -/
inductive Completion where
  | invalid (raw err : String)
  | valid (resp : Response)

/-- How a `run` ended: `done` (the terminal action returned at line 414),
`budget` (the `steps < self.max_steps` conjunct of the `while` test failed),
`crashed` (an exception other than `AgentError`/`JSONDecodeError` propagated
out of `run`), or `starved` (the model's completion stream was exhausted
while the loop would have continued — an artifact of the finite oracle). -/
inductive RunOutcome where
  | done
  | budget
  | starved
  | crashed (e : PyErr)

/-- Final state of a `run`: outcome, `self.context`, `self.actions_taken`,
`self.memory`, and the step counter (= the number of completions requested,
since `steps += 1` directly follows every `get_completion` call). -/
structure RunResult where
  outcome : RunOutcome
  context : String
  actionsTaken : List Response
  memory : MemoryState
  steps : Nat

/-- The recovery context built at lines 393-403 after an `AgentError`:
note that it REPLACES `self.context` (line 403). -/
def dispatchErrorContext (resp : Response) (errMsg : String) : String :=
  "\nJust tried running action " ++ "`" ++ resp.command.action ++ "`" ++
  (match resp.command.args with
   | some args => " given args " ++ pyStrList args
   | Option.none => "") ++
  (match resp.command.kwargs with
   | some kvs => " and given kwargs " ++ pyStrDict kvs
   | Option.none => "") ++
  "\nIt threw an error: " ++ errMsg

/-- The context appended at lines 375-379 when `json.loads` fails. -/
def decodeErrorContext (ctx raw err : String) : String :=
  ctx ++ "\nYou gave the answer: " ++ raw ++
    "\nCould not decode answer as JSON: " ++ err ++ "\nPlease try again."

/-- `AgenticGPT.run` (agentic_gpt.py lines 341-414), driven by the completion
oracle.  The `while` test `action is not DONE_FUNCTION and steps < self.max_steps`
reduces to the step test: `action` can only hold `DONE_FUNCTION`'s value after
a successful dispatch of the terminal action, and that path returns inside the
loop body (line 414) before the test is re-evaluated, so the first conjunct is
true whenever it is evaluated.  Prompt construction (lines 348-355) has no
effect on the state and is elided. -/
def runAux (acts : List AgentAction) (maxSteps : Nat) (mem : MemoryState)
    (ctx : String) (taken : List Response) (steps : Nat) :
    List Completion → RunResult
  | [] =>
    if steps < maxSteps then ⟨.starved, ctx, taken, mem, steps⟩
    else ⟨.budget, ctx, taken, mem, steps⟩
  | c :: rest =>
    if steps < maxSteps then
      match c with
      | .invalid raw err =>
          runAux acts maxSteps mem (decodeErrorContext ctx raw err) taken (steps + 1) rest
      | .valid resp =>
        match processResponse acts mem ctx resp with
        | .agentErr msg =>
            runAux acts maxSteps mem (dispatchErrorContext resp msg) taken (steps + 1) rest
        | .fatal e m' c' => ⟨.crashed e, c', taken, m', steps + 1⟩
        | .ok r result m' c' =>
          let taken' := taken ++ [r]
          if r.command.action = DONE_FUNCTION then
            ⟨.done, c', taken', m', steps + 1⟩
          else
            runAux acts maxSteps m' c' taken' (steps + 1) rest
    else ⟨.budget, ctx, taken, mem, steps⟩

/-- `AgenticGPT.run` from a fresh agent: `self.actions_taken = []`,
`self.context = ""` (lines 123-124), `steps = 0` (line 345), memory from the
constructor's `memory_dict` (line 120). -/
def runAgent (acts : List AgentAction) (maxSteps : Nat) (memoryDict : List (String × String))
    (completions : List Completion) : RunResult :=
  runAux acts maxSteps (Memory.init memoryDict) "" [] 0 completions

/-! ## The legacy module (`src/agent_gpt/agent/agent_gpt.py`) -/

/-- Modelled from the spec: the legacy `agent_gpt` package's `Action` class.
Its file (`src/agent_gpt/agent/action.py`) is absent from the sources — only
its caller `AgentGPT.process_response` is present — so the callable follows
the spec's Action contract: it "accepts positional args and keyword args,
returns either nothing, a JSON-serializable scalar, or a mapping".  Any
exception the callable raises simply propagates here; the legacy `run` wraps
dispatch in a bare `except:`, so the wrapping class of the propagated error
is irrelevant to the properties proved about this module. -/
structure OldAction where
  name : String
  description : String
  function : List Value → List (String × Value) → Except PyErr Value

/-- Python `isinstance(v, dict)`. -/
def Value.isDict : Value → Bool
  | .dict _ => true
  | _ => false

/-- Dict lookup on an embedded `Value.dict` payload. -/
def lookupValue (kvs : List (String × Value)) (k : String) : Option Value :=
  match kvs.find? (fun kv => kv.1 = k) with
  | some kv => some kv.2
  | Option.none => Option.none

/-- `AgentGPT.process_response` (agent_gpt.py lines 209-226): `args` and
`kwargs` are indexed unconditionally (lines 211-212; a missing key raises
`KeyError`); no templating; the first action with a matching name is invoked
with the args and kwargs; if the result `isinstance(..., dict)` and contains
the key `"context"`, `self.context` is assigned that value (lines 222-223).
The context is carried as a raw `Value` because Python assigns the mapping
entry unconverted.  Returns (agent_response, action_result, new context). -/
def agentGPTProcessResponse (acts : List OldAction) (ctx : Value) (resp : Response) :
    Except PyErr (Response × Value × Value) :=
  match resp.command.args, resp.command.kwargs with
  | some args, some kwargs =>
    (match acts.find? (fun a => a.name = resp.command.action) with
     | Option.none => .ok (resp, .none, ctx)
     | some a =>
       match a.function args kwargs with
       | .error e => .error e
       | .ok result =>
         match result with
         | .dict kvs =>
           (match lookupValue kvs "context" with
            | some v => .ok (resp, result, v)
            | Option.none => .ok (resp, result, ctx))
         | _ => .ok (resp, result, ctx))
  | _, _ => .error (.keyError "args")

/-! ## Object identity of the default memory dict

`AgenticGPT.__init__` declares `memory_dict=\x7b\x7d` (agentic_gpt.py line
85) and `Memory.__init__` executes `self.documents = documents` (memory.py
line 29) — a reference copy.  Python evaluates a default argument expression
once, at function definition time, and every call that omits the argument
binds that same object.  To state claims about object identity the documents
dicts live in an explicit heap; an address is an index into it. -/

/-- A heap of documents dicts. -/
abbrev DocHeap := List (List (String × String))

/-- The address of the dict created for `memory_dict=\x7b\x7d` when
`agentic_gpt.py` is imported. -/
def agenticDefaultMemoryAddr : Nat := 0

/-- The heap right after module import: only the default dict, empty. -/
def importHeap : DocHeap := [[]]

/-- An agent, as far as memory identity is concerned: the heap address of
`self.memory.documents`, and whether `self.memory.router_index` is an index
object or `None`. -/
structure AgentRef where
  docsAddr : Nat
  routerIsSome : Bool

/-- `AgenticGPT(objective)` with the `memory_dict` argument omitted: the
shared default dict (at its fixed address) is passed through to
`Memory.__init__`, which stores the same reference; `router_index` is built
only if that dict is currently non-empty. -/
def mkAgentDefault (h : DocHeap) : AgentRef × DocHeap :=
  let docs := h.getD agenticDefaultMemoryAddr []
  (⟨agenticDefaultMemoryAddr, !docs.isEmpty⟩, h)

/-- `AgenticGPT(objective, memory_dict=d)` with a caller-supplied dict
literal: a fresh object at a fresh address. -/
def mkAgentWith (h : DocHeap) (docs : List (String × String)) : AgentRef × DocHeap :=
  (⟨h.length, !docs.isEmpty⟩, h ++ [docs])

/-- `Memory.add_document` under the heap model: mutates the dict at the
agent's documents address (memory.py line 88), then raises `AttributeError`
if `router_index` is `None` (line 98). -/
def heapAddDocument (h : DocHeap) (ag : AgentRef) (name text : String) :
    DocHeap × Option PyErr :=
  let docs := h.getD ag.docsAddr []
  (h.set ag.docsAddr (insertDoc docs name text),
   if ag.routerIsSome then Option.none else some (.attributeError attrInsertMsg))

/-- The documents mapping an agent sees. -/
def agentDocuments (h : DocHeap) (ag : AgentRef) : List (String × String) :=
  h.getD ag.docsAddr []

/-- Sanity check of the heap model: two agents given their own dict literals
occupy distinct addresses, and an insertion through the first is invisible to
the second. -/
example :
    (let (a1, h1) := mkAgentWith importHeap []
     let (a2, h2) := mkAgentWith h1 []
     let (h3, _) := heapAddDocument h2 a1 "d" "x"
     agentDocuments h3 a2) = [] := rfl

/-! ## Helper lemmas -/

theorem strDataAppend (s t : String) : (s ++ t).data = s.data ++ t.data := by
  cases s
  cases t
  rfl

theorem lstarts_self_append : ∀ (n rest : List Char), lstarts n (n ++ rest) = true := by
  intro n
  induction n with
  | nil => intro rest; rfl
  | cons c cs ih => intro rest; simp [lstarts, ih]

theorem lsub_self_append : ∀ (n rest : List Char), lsub n (n ++ rest) = true := by
  intro n rest
  cases n with
  | nil => cases rest <;> simp [lsub, lstarts, List.isEmpty]
  | cons c cs =>
    simp [lsub]
    left
    have := lstarts_self_append (c :: cs) rest
    simpa using this

theorem lsub_append_right : ∀ (s t n : List Char), lsub n t = true → lsub n (s ++ t) = true := by
  intro s
  induction s with
  | nil => intro t n h; simpa using h
  | cons c cs ih =>
    intro t n h
    have ht := ih t n h
    cases n with
    | nil => simp [lsub, lstarts]
    | cons a as => simp [lsub]; right; simpa using ht

theorem strMk_ne_empty (c : Char) (cs : List Char) : (⟨c :: cs⟩ : String) ≠ "" := by
  intro h
  have := congrArg String.data h
  simp at this

/-! ## Claims -/

/-- C1: FALSE on the code (code bug).  `Action.execute` is declared
`def execute(self, *args)` with no keyword parameters, while
`process_response` calls `action.execute(*action_args, **action_kwargs)`, so
every dispatched command with a non-empty kwargs mapping makes Python raise a
`TypeError` at the call site; the error is not an `AgentError`, so `run`
crashes.  First conjunct: dispatching `declare_done` with the kwargs mapping
`\x7b"kwarg1": "v"\x7d` crashes the run with that `TypeError`.  Second
conjunct: the identical command with an empty kwargs mapping dispatches fine
and the run completes — the failure is due solely to the presence of keyword
arguments. -/
theorem c1_kwargs_dispatch_crashes :
    (runAgent [declareDoneAction] 100 []
      [.valid ⟨"t", "r", ⟨DONE_FUNCTION, some [], some [("kwarg1", .str "v")]⟩⟩]).outcome =
      .crashed (.typeError "execute() got an unexpected keyword argument")
    ∧ (runAgent [declareDoneAction] 100 []
        [.valid ⟨"t", "r", ⟨DONE_FUNCTION, some [], some []⟩⟩]).outcome = .done :=
  ⟨rfl, rfl⟩

/-- C10: FALSE on the code (code bug).  `AgenticGPT.__init__` declares
`memory_dict=\x7b\x7d` as a mutable default argument; Python allocates that
dict once, so two agents constructed with the default share one documents
dict (`Memory.__init__` stores the reference).  Before any addition the
second agent's mapping is empty; after `agent1.memory.add_document("d","x")`
the second agent's mapping contains `("d","x")` — not unchanged as the claim
requires. -/
theorem c10_default_memory_shared :
    (let p1 := mkAgentDefault importHeap
     let p2 := mkAgentDefault p1.2
     agentDocuments p2.2 p2.1) = []
    ∧ (let p1 := mkAgentDefault importHeap
       let p2 := mkAgentDefault p1.2
       let h3 := (heapAddDocument p2.2 p1.1 "d" "x").1
       agentDocuments h3 p2.1) = [("d", "x")] :=
  ⟨rfl, rfl⟩

/-- C2 counterexample: an action whose result is a non-serializable object
(`fetch_page` returning a page handle) makes the run CRASH with the
`TypeError` from lines 326-328 — the error is not recoverable, contradicting
the claim that the loop does not crash on a non-serializable result. -/
theorem c2_nonserializable_crashes_run :
    (runAgent [⟨"fetch_page", "fetch a page", fun _ => .ok (.obj "PageObject")⟩] 100
      [("seed", "s")]
      [.valid ⟨"t", "r", ⟨"fetch_page", Option.none, Option.none⟩⟩]).outcome =
      .crashed (.typeError (serializationErrorMsg "fetch_page")) :=
  rfl

/-- The dict payload returned by the example dispatched action for C3:
a mapping containing the key `"context"`. -/
def qaResultKVs : List (String × Value) := [("answer", .str "A"), ("context", .str "NEW")]

/-- An action returning a mapping that contains the key `"context"`. -/
def qaAction : AgentAction :=
  { name := "qa", description := "query", function := fun _ => .ok (.dict qaResultKVs) }

/-- A response dispatching `qa` with no args and no kwargs. -/
def qaResp : Response := ⟨"t", "r", ⟨"qa", Option.none, Option.none⟩⟩

/-- Projection of the context after a `process_response` call (absent when an
`AgentError` was raised, in which case the context is untouched). -/
def PRStep.ctxAfter : PRStep → Option String
  | .ok _ _ _ c => some c
  | .agentErr _ => Option.none
  | .fatal _ _ c => some c

/-- C3 counterexample: in `AgenticGPT.process_response` a dispatched action
returning the mapping `\x7b"answer": "A", "context": "NEW"\x7d` does NOT set
the context to `"NEW"`: the mapping's `"context"` value is ignored and the
context becomes the previous context plus the executed/stored notes. -/
theorem c3_new_module_ignores_context_key :
    lookupValue qaResultKVs "context" = some (.str "NEW")
    ∧ (processResponse [qaAction] (Memory.init [("seed", "s")]) "OLD" qaResp).ctxAfter =
        some "OLD\n\nCommand qa executed.\nResult is stored in Memory as: qa_result_1"
    ∧ "OLD\n\nCommand qa executed.\nResult is stored in Memory as: qa_result_1" ≠ "NEW" :=
  ⟨rfl, rfl, by decide⟩

/-- C3 amended: the behaviour the claim describes is implemented only by the
legacy `AgentGPT.process_response` (agent_gpt.py lines 221-223): when the
dispatched action's result is a mapping containing the key `"context"`, the
new context is exactly that mapping's `"context"` value, replacing the
previous context. -/
theorem c3_legacy_sets_context_from_result
    (acts : List OldAction) (ctx v : Value) (resp : Response)
    (a : OldAction) (args : List Value) (kwargs : List (String × Value))
    (kvs : List (String × Value))
    (hargs : resp.command.args = some args)
    (hkwargs : resp.command.kwargs = some kwargs)
    (hfind : acts.find? (fun x => x.name = resp.command.action) = some a)
    (hexec : a.function args kwargs = .ok (.dict kvs))
    (hctx : lookupValue kvs "context" = some v) :
    agentGPTProcessResponse acts ctx resp = .ok (resp, .dict kvs, v) := by
  simp [agentGPTProcessResponse, hargs, hkwargs, hfind, hexec, hctx]

/-- Witness for C3's amended theorem: a concrete legacy dispatch whose result
mapping carries `"context" ↦ "NEW"` replaces the context `"OLD"` by `"NEW"`. -/
theorem c3_legacy_sets_context_from_result_witness :
    agentGPTProcessResponse
      [⟨"qa", "query", fun _ _ => .ok (.dict qaResultKVs)⟩]
      (.str "OLD") ⟨"t", "r", ⟨"qa", some [], some []⟩⟩ =
      .ok (⟨"t", "r", ⟨"qa", some [], some []⟩⟩, .dict qaResultKVs, .str "NEW") :=
  c3_legacy_sets_context_from_result _ _ _ _ _ _ _ _ rfl rfl rfl rfl rfl

theorem processResponse_serialize_fatal
    (acts : List AgentAction) (mem : MemoryState) (ctx : String) (resp : Response)
    (a : AgentAction) (argsRaw actionArgs : List Value) (result : Value)
    (hargs : resp.command.args = some argsRaw)
    (htA : templateValues mem.documents argsRaw = .ok actionArgs)
    (hkw : resp.command.kwargs = Option.none)
    (hfind : acts.find? (fun x => x.name = resp.command.action) = some a)
    (hexec : a.function actionArgs = .ok result)
    (hser : jsonDumps result = Option.none) :
    processResponse acts mem ctx resp =
      .fatal (.typeError (serializationErrorMsg resp.command.action)) mem
        (ctx ++ "\n\nCommand " ++ resp.command.action ++ " executed.") := by
  simp [processResponse, hargs, htA, hkw, hfind, AgentAction.executeCall, hexec, hser]

/-- C2 amended: the failure is NOT recoverable.  For every dispatched action
whose non-null result is not JSON-serializable, `process_response` raises the
`TypeError` of lines 326-328; `run` catches only `AgentError`, so the loop
terminates with that exception on that very step; the memory is the entry
memory — no document is stored for the result — and `actions_taken` is
unchanged. -/
theorem c2_nonserializable_fatal
    (acts : List AgentAction) (mem : MemoryState) (ctx : String) (resp : Response)
    (a : AgentAction) (argsRaw actionArgs : List Value) (result : Value)
    (maxSteps steps : Nat) (taken : List Response) (rest : List Completion)
    (hargs : resp.command.args = some argsRaw)
    (htA : templateValues mem.documents argsRaw = .ok actionArgs)
    (hkw : resp.command.kwargs = Option.none)
    (hfind : acts.find? (fun x => x.name = resp.command.action) = some a)
    (hexec : a.function actionArgs = .ok result)
    (hnn : result.isNone = false)
    (hser : jsonDumps result = Option.none)
    (hstep : steps < maxSteps) :
    runAux acts maxSteps mem ctx taken steps (.valid resp :: rest) =
      ⟨.crashed (.typeError (serializationErrorMsg resp.command.action)),
        ctx ++ "\n\nCommand " ++ resp.command.action ++ " executed.",
        taken, mem, steps + 1⟩ := by
  have hp := processResponse_serialize_fatal acts mem ctx resp a argsRaw actionArgs
    result hargs htA hkw hfind hexec hser
  simp [runAux, hstep, hp]

/-- Witness for C2's amended theorem: an action returning a browser-page
object crashes the run at step 1 with the serialization `TypeError`, with
memory and `actions_taken` untouched. -/
theorem c2_nonserializable_fatal_witness :
    runAux [⟨"fetch_page", "fetch a page", fun _ => .ok (.obj "PageObject")⟩] 100
      (Memory.init [("seed", "s")]) "OLD" [] 0
      [.valid ⟨"t", "r", ⟨"fetch_page", some [], Option.none⟩⟩] =
      ⟨.crashed (.typeError (serializationErrorMsg "fetch_page")),
        "OLD" ++ "\n\nCommand " ++ "fetch_page" ++ " executed.",
        [], Memory.init [("seed", "s")], 1⟩ :=
  c2_nonserializable_fatal _ _ _ _ _ _ _ _ _ _ _ _
    rfl rfl rfl rfl rfl rfl rfl (by decide)

theorem processResponse_store_attr_fatal
    (acts : List AgentAction) (mem : MemoryState) (ctx : String) (resp : Response)
    (a : AgentAction) (argsRaw actionArgs : List Value) (result : Value) (ser : String)
    (hargs : resp.command.args = some argsRaw)
    (htA : templateValues mem.documents argsRaw = .ok actionArgs)
    (hkw : resp.command.kwargs = Option.none)
    (hfind : acts.find? (fun x => x.name = resp.command.action) = some a)
    (hexec : a.function actionArgs = .ok result)
    (hnn : result.isNone = false)
    (hser : jsonDumps result = some ser)
    (hrouter : mem.routerIsSome = false) :
    processResponse acts mem ctx resp =
      .fatal (.attributeError attrInsertMsg)
        ((mem.addDocument
          (nameActionReturnedVariable mem.documents resp.command.action) ser).1)
        (ctx ++ "\n\nCommand " ++ resp.command.action ++ " executed.") := by
  simp [processResponse, hargs, htA, hkw, hfind, AgentAction.executeCall, hexec, hser,
    hnn, MemoryState.addDocument, hrouter]

/-- C5: confirmed.  A `Memory` constructed with no initial documents has
`router_index = None` (first conjunct); every `add_document` on a memory
whose router is `None` raises the `AttributeError` at
`self.router_index.insert` (second conjunct); and the first dispatched
action that produces a non-null, serializable result makes `run` terminate
with that uncaught `AttributeError` instead of a recoverable error (third
conjunct). -/
theorem c5_empty_memory_add_document_crashes
    (acts : List AgentAction) (mem : MemoryState) (ctx : String) (resp : Response)
    (a : AgentAction) (argsRaw actionArgs : List Value) (result : Value) (ser : String)
    (maxSteps steps : Nat) (taken : List Response) (rest : List Completion)
    (hargs : resp.command.args = some argsRaw)
    (htA : templateValues mem.documents argsRaw = .ok actionArgs)
    (hkw : resp.command.kwargs = Option.none)
    (hfind : acts.find? (fun x => x.name = resp.command.action) = some a)
    (hexec : a.function actionArgs = .ok result)
    (hnn : result.isNone = false)
    (hser : jsonDumps result = some ser)
    (hrouter : mem.routerIsSome = false)
    (hstep : steps < maxSteps) :
    (Memory.init []).routerIsSome = false
    ∧ (∀ (m : MemoryState) (n t : String), m.routerIsSome = false →
        (m.addDocument n t).2 = some (.attributeError attrInsertMsg))
    ∧ (runAux acts maxSteps mem ctx taken steps (.valid resp :: rest)).outcome =
        .crashed (.attributeError attrInsertMsg) := by
  refine ⟨rfl, ?_, ?_⟩
  · intro m n t hm
    simp [MemoryState.addDocument, hm]
  · have hp := processResponse_store_attr_fatal acts mem ctx resp a argsRaw actionArgs
      result ser hargs htA hkw hfind hexec hnn hser hrouter
    simp [runAux, hstep, hp]

/-- Witness for C5: a fresh agent with the default (empty) memory dispatches
`say_hi`, which returns the string `"hi"`; storing the result crashes the
run with the `AttributeError`. -/
theorem c5_empty_memory_add_document_crashes_witness :
    (Memory.init []).routerIsSome = false
    ∧ (runAux [⟨"say_hi", "greet", fun _ => .ok (.str "hi")⟩] 100
        (Memory.init []) "" [] 0
        [.valid ⟨"t", "r", ⟨"say_hi", some [], Option.none⟩⟩]).outcome =
        .crashed (.attributeError attrInsertMsg) := by
  have h := c5_empty_memory_add_document_crashes
    [⟨"say_hi", "greet", fun _ => .ok (.str "hi")⟩] (Memory.init []) ""
    ⟨"t", "r", ⟨"say_hi", some [], Option.none⟩⟩
    ⟨"say_hi", "greet", fun _ => .ok (.str "hi")⟩ [] [] (.str "hi") (jsonQuote "hi")
    100 0 [] [] rfl rfl rfl rfl rfl rfl rfl rfl (by decide)
  exact ⟨h.1, h.2.2⟩

theorem strAppend_assoc (a b c : String) : (a ++ b) ++ c = a ++ (b ++ c) := by
  cases a with
  | mk x =>
    cases b with
    | mk y =>
      cases c with
      | mk z =>
        show (⟨(x ++ y) ++ z⟩ : String) = ⟨x ++ (y ++ z)⟩
        rw [List.append_assoc]

theorem strContains_append_middle (x y z : String) :
    strContains (x ++ y ++ z) y = true := by
  unfold strContains
  rw [strDataAppend, strDataAppend, List.append_assoc]
  exact lsub_append_right _ _ _ (lsub_self_append _ _)

/-- C7: confirmed.  A completion that is not valid JSON consumes exactly one
step: the loop state advances to `steps + 1` with `actions_taken` unchanged,
the context extended with the decode-error message, and the loop continues on
the remaining completions (first conjunct); the new context contains the
decode error text (second conjunct). -/
theorem c7_invalid_json_consumes_step
    (acts : List AgentAction) (maxSteps : Nat) (mem : MemoryState) (ctx : String)
    (taken : List Response) (steps : Nat) (raw err : String) (rest : List Completion)
    (hstep : steps < maxSteps) :
    runAux acts maxSteps mem ctx taken steps (.invalid raw err :: rest) =
      runAux acts maxSteps mem (decodeErrorContext ctx raw err) taken (steps + 1) rest
    ∧ strContains (decodeErrorContext ctx raw err) err = true := by
  constructor
  · simp [runAux, hstep]
  · exact strContains_append_middle
      (ctx ++ "\nYou gave the answer: " ++ raw ++ "\nCould not decode answer as JSON: ")
      err "\nPlease try again."

/-- Witness for C7 at a concrete malformed completion. -/
theorem c7_invalid_json_consumes_step_witness :
    runAux [] 5 (Memory.init []) "C" [] 0 [.invalid "oops" "Expecting value"] =
      runAux [] 5 (Memory.init []) (decodeErrorContext "C" "oops" "Expecting value") [] 1 []
    ∧ strContains (decodeErrorContext "C" "oops" "Expecting value") "Expecting value" = true :=
  c7_invalid_json_consumes_step [] 5 (Memory.init []) "C" [] 0 "oops" "Expecting value" []
    (by decide)

theorem runAux_steps_le (acts : List AgentAction) (maxSteps : Nat) :
    ∀ (cs : List Completion) (mem : MemoryState) (ctx : String)
      (taken : List Response) (steps : Nat), steps ≤ maxSteps →
      (runAux acts maxSteps mem ctx taken steps cs).steps ≤ maxSteps := by
  intro cs
  induction cs with
  | nil =>
    intro mem ctx taken steps h
    by_cases hs : steps < maxSteps <;> simp [runAux, hs, h]
  | cons c rest ih =>
    intro mem ctx taken steps h
    by_cases hs : steps < maxSteps
    · cases c with
      | invalid raw err =>
        simp only [runAux, hs, if_pos]
        exact ih _ _ _ _ (by omega)
      | valid resp =>
        simp only [runAux, hs, if_pos]
        cases hp : processResponse acts mem ctx resp with
        | agentErr msg => exact ih _ _ _ _ (by omega)
        | fatal e m' c' => simpa using (by omega : steps + 1 ≤ maxSteps)
        | ok r result m' c' =>
          by_cases hd : r.command.action = DONE_FUNCTION
          · simp [hd]; omega
          · simp only [hd, if_neg, ite_false]
            exact ih _ _ _ _ (by omega)
    · simp [runAux, hs, h]

/-- C8: confirmed.  With `max_steps > 0`: the final step counter — which
equals the number of completions requested, since `steps += 1` directly
follows every `get_completion` call — never exceeds `max_steps` (first
conjunct); and whenever `process_response` successfully dispatches the
terminal `declare_done` action, `run` returns on that very step, regardless
of any remaining completions (second conjunct). -/
theorem c8_step_budget_and_terminal_return
    (acts : List AgentAction) (maxSteps : Nat) (memoryDict : List (String × String))
    (completions : List Completion) (hmax : 0 < maxSteps) :
    (runAgent acts maxSteps memoryDict completions).steps ≤ maxSteps
    ∧ ∀ (mem : MemoryState) (ctx : String) (taken : List Response) (steps : Nat)
        (rest : List Completion) (resp r : Response) (result : Value)
        (m' : MemoryState) (c' : String),
        steps < maxSteps →
        processResponse acts mem ctx resp = .ok r result m' c' →
        r.command.action = DONE_FUNCTION →
        runAux acts maxSteps mem ctx taken steps (.valid resp :: rest) =
          ⟨.done, c', taken ++ [r], m', steps + 1⟩ := by
  constructor
  · exact runAux_steps_le acts maxSteps completions _ _ _ _ (by omega)
  · intro mem ctx taken steps rest resp r result m' c' hstep hp hdone
    simp [runAux, hstep, hp, hdone]

/-- Witness for C8: a two-completion oracle where the terminal action is
dispatched on step 1 of a 3-step budget; the run returns immediately and the
budget bound holds. -/
theorem c8_step_budget_and_terminal_return_witness :
    (runAgent [declareDoneAction] 3 [] [.valid ⟨"t", "r", ⟨DONE_FUNCTION, some [], Option.none⟩⟩]).steps ≤ 3
    ∧ runAux [declareDoneAction] 3 (Memory.init []) "" [] 0
        [.valid ⟨"t", "r", ⟨DONE_FUNCTION, some [], Option.none⟩⟩,
         .invalid "late" "err"] =
        ⟨.done, "" ++ "\n\nCommand " ++ DONE_FUNCTION ++ " executed.",
          [⟨"t", "r", ⟨DONE_FUNCTION, some [], Option.none⟩⟩], Memory.init [], 1⟩ := by
  have h := c8_step_budget_and_terminal_return [declareDoneAction] 3 []
    [.valid ⟨"t", "r", ⟨DONE_FUNCTION, some [], Option.none⟩⟩] (by decide)
  refine ⟨h.1, ?_⟩
  exact h.2 (Memory.init []) "" [] 0 [.invalid "late" "err"]
    ⟨"t", "r", ⟨DONE_FUNCTION, some [], Option.none⟩⟩
    ⟨"t", "r", ⟨DONE_FUNCTION, some [], Option.none⟩⟩
    .none (Memory.init []) ("" ++ "\n\nCommand " ++ DONE_FUNCTION ++ " executed.")
    (by decide) rfl rfl

/-- C4 counterexample: for the memory `\x7b"e": ""\x7d` and the argument
`"\x7b\x7be\x7d\x7d"`, template substitution changes the string via a
reference to an EXISTING document (first two conjuncts), yet
`__template_from_memory` (agentic_gpt.py lines 270-274) raises the
`AgentError` (third conjunct): the substituted text is NOT interpreted as a
literal value and nothing is passed to the action (fourth conjunct) — the
code uses emptiness of the rendering as its unknown-variable test, so an
existing document with empty text is misclassified. -/
theorem c4_empty_document_not_literal :
    lookupStr [("e", "")] "e" = some ""
    ∧ render [("e", "")] ⟨[lbrace, lbrace, 'e', rbrace, rbrace]⟩ ≠
        (⟨[lbrace, lbrace, 'e', rbrace, rbrace]⟩ : String)
    ∧ templateFromMemory [("e", "")] (.str ⟨[lbrace, lbrace, 'e', rbrace, rbrace]⟩) =
        .error (.agentError ((⟨[lbrace, lbrace, 'e', rbrace, rbrace]⟩ : String) ++
          " is not a valid file in memory. Please try again."))
    ∧ templateFromMemory [("e", "")] (.str ⟨[lbrace, lbrace, 'e', rbrace, rbrace]⟩) ≠
        pyEval (render [("e", "")] ⟨[lbrace, lbrace, 'e', rbrace, rbrace]⟩) := by
  refine ⟨rfl, by decide, rfl, ?_⟩
  intro h
  exact PyErr.noConfusion (Except.error.inj h)

/-- C4 amended: for every string action argument that template substitution
changes, if the substituted text is non-empty it is interpreted as a literal
value (passed to the builtin `eval`) before being handed to the action (first
conjunct); if the substituted text is empty — as happens both for a reference
to a missing document and for a reference to an existing document with empty
text — an `AgentError` is raised instead and nothing is passed (second
conjunct).  Third conjunct (Scenario B): the argument
`"\x7b\x7bdoc1\x7d\x7d"` with `doc1` stored as the JSON-serialized text
`"hello"` resolves to the literal string value `hello`. -/
theorem c4_substitution_literal_or_empty_error
    (docs : List (String × String)) (s : String)
    (h1 : render docs s ≠ s) :
    (render docs s ≠ "" → templateFromMemory docs (.str s) = pyEval (render docs s))
    ∧ (render docs s = "" → templateFromMemory docs (.str s) =
        .error (.agentError (s ++ " is not a valid file in memory. Please try again.")))
    ∧ templateFromMemory [("doc1", jsonQuote "hello")]
        (.str ⟨[lbrace, lbrace, 'd', 'o', 'c', '1', rbrace, rbrace]⟩) =
        .ok (.str "hello") := by
  refine ⟨?_, ?_, rfl⟩
  · intro h2
    simp only [templateFromMemory]
    rw [if_pos h1, if_neg h2]
  · intro h2
    simp only [templateFromMemory]
    rw [if_pos h1, if_pos h2]

/-- Witness for C4's amended theorem: the non-empty branch at the Scenario B
input, and the empty branch at the existing-but-empty document `e`. -/
theorem c4_substitution_literal_or_empty_error_witness :
    templateFromMemory [("doc1", jsonQuote "hello")]
        (.str ⟨[lbrace, lbrace, 'd', 'o', 'c', '1', rbrace, rbrace]⟩) =
      pyEval (render [("doc1", jsonQuote "hello")]
        ⟨[lbrace, lbrace, 'd', 'o', 'c', '1', rbrace, rbrace]⟩)
    ∧ templateFromMemory [("e", "")] (.str ⟨[lbrace, lbrace, 'e', rbrace, rbrace]⟩) =
        .error (.agentError ((⟨[lbrace, lbrace, 'e', rbrace, rbrace]⟩ : String) ++
          " is not a valid file in memory. Please try again."))
    ∧ templateFromMemory [("doc1", jsonQuote "hello")]
        (.str ⟨[lbrace, lbrace, 'd', 'o', 'c', '1', rbrace, rbrace]⟩) =
        .ok (.str "hello") :=
  ⟨(c4_substitution_literal_or_empty_error [("doc1", jsonQuote "hello")]
      ⟨[lbrace, lbrace, 'd', 'o', 'c', '1', rbrace, rbrace]⟩ (by decide)).1 (by decide),
   (c4_substitution_literal_or_empty_error [("e", "")]
      ⟨[lbrace, lbrace, 'e', rbrace, rbrace]⟩ (by decide)).2.1 (by decide),
   (c4_substitution_literal_or_empty_error [("doc1", jsonQuote "hello")]
      ⟨[lbrace, lbrace, 'd', 'o', 'c', '1', rbrace, rbrace]⟩ (by decide)).2.2⟩

theorem renderAux_inVar (docs : List (String × String)) (tail : List Char) :
    ∀ (nmcs acc : List Char), (∀ c ∈ nmcs, c ≠ rbrace) →
      renderAux docs (.inVar acc) (nmcs ++ rbrace :: rbrace :: tail) =
      renderAux docs (.oneR (acc ++ nmcs)) (rbrace :: tail) := by
  intro nmcs
  induction nmcs with
  | nil => intro acc h; simp [renderAux]
  | cons c cs ih =>
    intro acc h
    have hc : c ≠ rbrace := h c (by simp)
    rw [List.cons_append, renderAux, if_neg hc, ih (acc ++ [c]) (fun x hx => h x (by simp [hx]))]
    simp

theorem render_missing_var (docs : List (String × String)) (nm : String)
    (hnb : ∀ c ∈ nm.data, c ≠ rbrace)
    (hlook : lookupStr docs ⟨trimChars nm.data⟩ = Option.none) :
    render docs ⟨lbrace :: lbrace :: (nm.data ++ [rbrace, rbrace])⟩ = "" := by
  show (⟨renderAux docs .out (lbrace :: lbrace :: (nm.data ++ [rbrace, rbrace]))⟩ : String) = ""
  have h1 : renderAux docs .out (lbrace :: lbrace :: (nm.data ++ [rbrace, rbrace])) =
      renderAux docs (.inVar []) (nm.data ++ [rbrace, rbrace]) := by
    rw [renderAux, if_pos rfl, renderAux, if_pos rfl]
  rw [h1]
  have h2 := renderAux_inVar docs [] nm.data [] hnb
  simp only [List.nil_append] at h2
  rw [show nm.data ++ [rbrace, rbrace] = nm.data ++ rbrace :: rbrace :: ([] : List Char) from rfl,
    h2, renderAux, if_pos rfl, hlook]
  rfl

/-- The argument string `"\x7b\x7bnm\x7d\x7d"`: solely a template reference
to the document named `nm`. -/
def soleVarRef (nm : String) : String :=
  ⟨lbrace :: lbrace :: (nm.data ++ [rbrace, rbrace])⟩

/-- C6: confirmed.  A string action argument that is solely a template
reference to a document name absent from memory: (1) resolution raises the
recoverable `AgentError` (jinja renders the unknown name as the empty string,
which `__template_from_memory` turns into the "not a valid file" error);
(2) `process_response` propagates it as a recoverable dispatch error with no
state change; (3) the loop does not crash — it continues with `steps + 1` —
and the next context is REPLACED by the recovery message; (4) that message
names the attempted action, its args, and the error. -/
theorem c6_unknown_variable_recovered
    (acts : List AgentAction) (mem : MemoryState) (ctx : String)
    (taken : List Response) (steps maxSteps : Nat) (rest : List Completion)
    (nm actionName thought reasoning : String)
    (hnb : ∀ c ∈ nm.data, c ≠ rbrace)
    (hlook : lookupStr mem.documents ⟨trimChars nm.data⟩ = Option.none)
    (hstep : steps < maxSteps) :
    templateFromMemory mem.documents (.str (soleVarRef nm)) =
      .error (.agentError (soleVarRef nm ++ " is not a valid file in memory. Please try again."))
    ∧ processResponse acts mem ctx
        ⟨thought, reasoning, ⟨actionName, some [.str (soleVarRef nm)], Option.none⟩⟩ =
        .agentErr (soleVarRef nm ++ " is not a valid file in memory. Please try again.")
    ∧ runAux acts maxSteps mem ctx taken steps
        (.valid ⟨thought, reasoning, ⟨actionName, some [.str (soleVarRef nm)], Option.none⟩⟩ :: rest) =
        runAux acts maxSteps mem
          (dispatchErrorContext
            ⟨thought, reasoning, ⟨actionName, some [.str (soleVarRef nm)], Option.none⟩⟩
            (soleVarRef nm ++ " is not a valid file in memory. Please try again."))
          taken (steps + 1) rest
    ∧ dispatchErrorContext
        ⟨thought, reasoning, ⟨actionName, some [.str (soleVarRef nm)], Option.none⟩⟩
        (soleVarRef nm ++ " is not a valid file in memory. Please try again.") =
        "\nJust tried running action " ++ "`" ++ actionName ++ "`" ++
          (" given args " ++ pyStrList [.str (soleVarRef nm)]) ++ "" ++
          "\nIt threw an error: " ++
          (soleVarRef nm ++ " is not a valid file in memory. Please try again.") := by
  have hrender : render mem.documents (soleVarRef nm) = "" :=
    render_missing_var mem.documents nm hnb hlook
  have hne : render mem.documents (soleVarRef nm) ≠ soleVarRef nm := by
    rw [hrender]
    exact (strMk_ne_empty lbrace _).symm
  have htpl : templateFromMemory mem.documents (.str (soleVarRef nm)) =
      .error (.agentError (soleVarRef nm ++ " is not a valid file in memory. Please try again.")) := by
    simp only [templateFromMemory]
    rw [if_pos hne, if_pos hrender]
  have hproc : processResponse acts mem ctx
      ⟨thought, reasoning, ⟨actionName, some [.str (soleVarRef nm)], Option.none⟩⟩ =
      .agentErr (soleVarRef nm ++ " is not a valid file in memory. Please try again.") := by
    simp [processResponse, templateValues, htpl, bind, Except.bind]
  refine ⟨htpl, hproc, ?_, ?_⟩
  · simp [runAux, hstep, hproc]
  · simp [dispatchErrorContext]

/-- Witness for C6: the argument `"\x7b\x7bdoc_missing\x7d\x7d"` against a
memory holding only `other`. -/
theorem c6_unknown_variable_recovered_witness :
    templateFromMemory (Memory.init [("other", "x")]).documents
      (.str (soleVarRef "doc_missing")) =
      .error (.agentError (soleVarRef "doc_missing" ++ " is not a valid file in memory. Please try again."))
    ∧ processResponse [] (Memory.init [("other", "x")]) "C"
        ⟨"t", "r", ⟨"read_file", some [.str (soleVarRef "doc_missing")], Option.none⟩⟩ =
        .agentErr (soleVarRef "doc_missing" ++ " is not a valid file in memory. Please try again.")
    ∧ runAux [] 5 (Memory.init [("other", "x")]) "C" [] 0
        (.valid ⟨"t", "r", ⟨"read_file", some [.str (soleVarRef "doc_missing")], Option.none⟩⟩ :: []) =
        runAux [] 5 (Memory.init [("other", "x")])
          (dispatchErrorContext
            ⟨"t", "r", ⟨"read_file", some [.str (soleVarRef "doc_missing")], Option.none⟩⟩
            (soleVarRef "doc_missing" ++ " is not a valid file in memory. Please try again."))
          [] 1 []
    ∧ dispatchErrorContext
        ⟨"t", "r", ⟨"read_file", some [.str (soleVarRef "doc_missing")], Option.none⟩⟩
        (soleVarRef "doc_missing" ++ " is not a valid file in memory. Please try again.") =
        "\nJust tried running action " ++ "`" ++ "read_file" ++ "`" ++
          (" given args " ++ pyStrList [.str (soleVarRef "doc_missing")]) ++ "" ++
          "\nIt threw an error: " ++
          (soleVarRef "doc_missing" ++ " is not a valid file in memory. Please try again.") :=
  c6_unknown_variable_recovered [] (Memory.init [("other", "x")]) "C" [] 0 5 []
    "doc_missing" "read_file" "t" "r" (by decide) (by decide) (by decide)

theorem natToString_inj : Function.Injective natToString := by
  intro m n h
  by_cases hm : m = 0
  · by_cases hn : n = 0
    · omega
    · exfalso
      subst hm
      unfold natToString at h
      rw [if_pos rfl, if_neg (by omega)] at h
      have hdata : ['0'] = natToStrAux (n + 1) n := congrArg String.data h
      rw [natToStrAux_eq_digits _ _ (by omega)] at hdata
      have h0 : ['0'] = ([0] : List Nat).map Nat.digitChar := rfl
      rw [h0] at hdata
      have : ([0] : List Nat) = (Nat.digits 10 n).reverse :=
        map_digitChar_inj _ _ (by simp)
          (fun x hx => Nat.digits_lt_base (by norm_num) (by simpa using hx)) hdata
      have hdig : Nat.digits 10 n = [0] := by
        have := congrArg List.reverse this
        simpa using this.symm
      have := Nat.ofDigits_digits 10 n
      rw [hdig] at this
      simp [Nat.ofDigits] at this
      omega
  · by_cases hn : n = 0
    · exfalso
      subst hn
      unfold natToString at h
      rw [if_neg (by omega), if_pos rfl] at h
      have hdata : natToStrAux (m + 1) m = ['0'] := congrArg String.data h
      rw [natToStrAux_eq_digits _ _ (by omega)] at hdata
      have h0 : ['0'] = ([0] : List Nat).map Nat.digitChar := rfl
      rw [h0] at hdata
      have : (Nat.digits 10 m).reverse = ([0] : List Nat) :=
        map_digitChar_inj _ _
          (fun x hx => Nat.digits_lt_base (by norm_num) (by simpa using hx)) (by simp) hdata
      have hdig : Nat.digits 10 m = [0] := by
        have := congrArg List.reverse this
        simpa using this
      have := Nat.ofDigits_digits 10 m
      rw [hdig] at this
      simp [Nat.ofDigits] at this
      omega
    · exact natToString_inj_pos (by omega) (by omega) h

/-- The disambiguated result name `"<a>_result_<k>"`. -/
def resName (a : String) (k : Nat) : String :=
  a ++ "_result_" ++ natToString k

theorem resName_inj (a : String) : Function.Injective (resName a) := by
  intro j k h
  have hdata := congrArg String.data h
  unfold resName at hdata
  rw [strDataAppend, strDataAppend, strDataAppend, strDataAppend,
    List.append_assoc, List.append_assoc] at hdata
  have h2 := List.append_cancel_left hdata
  have h3 := List.append_cancel_left h2
  exact natToString_inj (String.ext h3)

theorem lsub_resName (a : String) (k : Nat) : lsub a.data (resName a k).data = true := by
  unfold resName
  rw [strDataAppend, strDataAppend, List.append_assoc]
  exact lsub_self_append _ _

theorem countContaining_append (d1 d2 : List (String × String)) (a : String) :
    countContaining (d1 ++ d2) a = countContaining d1 a + countContaining d2 a := by
  unfold countContaining
  rw [List.filter_append, List.length_append]

theorem countContaining_eq_zero (d : List (String × String)) (a : String)
    (h : ∀ kv ∈ d, lsub a.data kv.1.data = false) : countContaining d a = 0 := by
  unfold countContaining
  rw [List.length_eq_zero]
  rw [List.filter_eq_nil_iff]
  intro kv hkv
  simp [h kv hkv]

/-- The store path of `process_response` iterated over a run: for each
successive non-null serialized result `t` of the action named `a`, compute
the disambiguated name from the current documents
(`__name_action_returned_variable`, line 322) and store the document under it
(`Memory.add_document`, line 331).  Returns the final memory and the list of
names used, in order. -/
def resultRounds (m : MemoryState) (a : String) : List String → MemoryState × List String
  | [] => (m, [])
  | t :: ts =>
    let nm := nameActionReturnedVariable m.documents a
    let m' := (m.addDocument nm t).1
    let p := resultRounds m' a ts
    (p.1, nm :: p.2)

theorem resultRounds_names_aux (a : String) :
    ∀ (ts : List String) (m : MemoryState) (d0 gen : List (String × String)) (i : Nat),
      m.documents = d0 ++ gen →
      (∀ kv ∈ d0, lsub a.data kv.1.data = false) →
      gen.map Prod.fst = (List.range' 1 i).map (resName a) →
      (resultRounds m a ts).2 = (List.range' (i + 1) ts.length).map (resName a) := by
  intro ts
  induction ts with
  | nil => intro m d0 gen i _ _ _; simp [resultRounds]
  | cons t ts ih =>
    intro m d0 gen i hdocs hd0 hgen
    have hgenkeys : ∀ kv ∈ gen, ∃ j, 1 ≤ j ∧ j < 1 + i ∧ kv.1 = resName a j := by
      intro kv hkv
      have : kv.1 ∈ gen.map Prod.fst := List.mem_map_of_mem _ hkv
      rw [hgen] at this
      obtain ⟨j, hj, hje⟩ := List.mem_map.mp this
      exact ⟨j, (List.mem_range'_1.mp hj).1, (List.mem_range'_1.mp hj).2, hje.symm⟩
    have hcount : countContaining m.documents a = i := by
      rw [hdocs, countContaining_append, countContaining_eq_zero d0 a hd0]
      have hfull : countContaining gen a = gen.length := by
        unfold countContaining
        rw [List.filter_eq_self.mpr]
        intro kv hkv
        obtain ⟨j, _, _, hje⟩ := hgenkeys kv hkv
        rw [hje]
        exact lsub_resName a j
      have hlen : gen.length = i := by
        have := congrArg List.length hgen
        simpa using this
      omega
    have hname : nameActionReturnedVariable m.documents a = resName a (i + 1) := by
      have h1i : 1 + countContaining m.documents a = i + 1 := by omega
      simp [nameActionReturnedVariable, resName, h1i]
    have hfresh : m.documents.any (fun kv => kv.1 = resName a (i + 1)) = false := by
      rw [List.any_eq_false]
      intro kv hkv
      rw [hdocs] at hkv
      rcases List.mem_append.mp hkv with hin | hin
      · intro hc
        have h1 := hd0 kv hin
        have h2 := lsub_resName a (i + 1)
        rw [← (by simpa using hc : kv.1 = resName a (i + 1))] at h2
        rw [h1] at h2
        exact Bool.false_ne_true h2
      · intro hc
        obtain ⟨j, hj1, hj2, hje⟩ := hgenkeys kv hin
        have : resName a j = resName a (i + 1) := by
          rw [← hje]; simpa using hc
        have := resName_inj a this
        omega
    have hins : insertDoc m.documents (resName a (i + 1)) t =
        d0 ++ (gen ++ [(resName a (i + 1), t)]) := by
      unfold insertDoc
      rw [hfresh]
      simp [hdocs]
    have hm' : ((m.addDocument (nameActionReturnedVariable m.documents a) t).1).documents =
        d0 ++ (gen ++ [(resName a (i + 1), t)]) := by
      rw [hname]
      show insertDoc m.documents (resName a (i + 1)) t = _
      exact hins
    have hgen' : (gen ++ [(resName a (i + 1), t)]).map Prod.fst =
        (List.range' 1 (i + 1)).map (resName a) := by
      have h1i : 1 + 1 * i = i + 1 := by omega
      rw [List.map_append, hgen, List.range'_concat, h1i, List.map_append]
      simp
    have hrec := ih _ d0 (gen ++ [(resName a (i + 1), t)]) (i + 1) hm' hd0 hgen'
    rw [hname] at hrec
    show (nameActionReturnedVariable m.documents a) ::
        (resultRounds ((m.addDocument (nameActionReturnedVariable m.documents a) t).1) a ts).2 =
      (List.range' (i + 1) (ts.length + 1)).map (resName a)
    rw [hname, hrec, List.range'_succ]
    simp

/-- C9: confirmed.  First conjunct: the stored document name is always
`"<action_name>_result_<n>"` with `n` one more than the count of existing
memory document names containing `action_name` as a substring (the definition
of `__name_action_returned_variable`).  Second and third conjuncts: starting
from a memory none of whose document names contains the action name,
repeatedly storing results of the same action yields the names
`a_result_1, a_result_2, …` (suffixes `1 .. len`, strictly increasing), all
distinct. -/
theorem c9_result_names (m : MemoryState) (a : String) (ts : List String)
    (h : ∀ kv ∈ m.documents, lsub a.data kv.1.data = false) :
    (∀ (docs : List (String × String)) (an : String),
        nameActionReturnedVariable docs an =
          an ++ "_result_" ++ natToString (1 + countContaining docs an))
    ∧ (resultRounds m a ts).2 = (List.range' 1 ts.length).map (resName a)
    ∧ (resultRounds m a ts).2.Nodup := by
  have hnames := resultRounds_names_aux a ts m m.documents [] 0 (by simp) h (by simp)
  simp only [Nat.zero_add] at hnames
  refine ⟨fun docs an => rfl, hnames, ?_⟩
  rw [hnames]
  exact (List.nodup_range' 1 ts.length).map (resName_inj a)

/-- Witness for C9: two successive `foo` results stored against a memory
seeded with one unrelated document produce `foo_result_1`, `foo_result_2`. -/
theorem c9_result_names_witness :
    (resultRounds (Memory.init [("seed", "s")]) "foo" ["r1", "r2"]).2 =
      (List.range' 1 2).map (resName "foo")
    ∧ (resultRounds (Memory.init [("seed", "s")]) "foo" ["r1", "r2"]).2.Nodup := by
  have hc := c9_result_names (Memory.init [("seed", "s")]) "foo" ["r1", "r2"] (by decide)
  exact ⟨hc.2.1, hc.2.2⟩

/-- Sanity check: those names evaluate to the literal strings of the spec. -/
example :
    (resultRounds (Memory.init [("seed", "s")]) "foo" ["r1", "r2"]).2 =
      ["foo_result_1", "foo_result_2"] := rfl
